import Mathlib

/-!
Verification of the upload-orchestration core of the SaaS_Frontend repository.

The definitions below are shallow embeddings of the TypeScript source:
state objects become structures, reducers and handlers become pure
functions, and the outcome of each remote call is passed in explicitly so
that every control path of the original code is a value of the model.
-/

namespace SaaS

/-! ### Thumbnail reducer
Embeds src/src/lib/hooks/upload/thumbnailReducer.ts.  A JavaScript array
that may contain holes (from a sparse index assignment) is modelled as a
list of optional strings; reading a hole and reading past the end both
give none, as in JavaScript. -/

structure ThumbnailState where
  isLoading : Bool
  error : Option String
  generatedThumbnails : List (Option String)
  thumbnailLoadingStates : List Bool
deriving Repr, DecidableEq

def initialThumbnailState : ThumbnailState :=
  { isLoading := false
    error := none
    generatedThumbnails := []
    thumbnailLoadingStates := [false, false, false, false, false] }

inductive ThumbnailAction where
  | initBatch : ThumbnailAction
  | initSingle : ThumbnailAction
  | setItemDone (index : Int) : ThumbnailAction
  | addOrSetThumbnail (index : Int) (url : String) : ThumbnailAction
  | successBatch (thumbnails : List String) : ThumbnailAction
  | successSave : ThumbnailAction
  | error (payload : String) : ThumbnailAction
  | clear : ThumbnailAction
deriving Repr, DecidableEq

/-- Assignment at a non-negative position of a sparse JavaScript array:
positions inside the array are overwritten, positions past the end extend
the array with holes.  An assignment at a negative position creates a
plain object property and leaves the array elements untouched. -/
def padSet : List (Option String) → Nat → String → List (Option String)
  | [], 0, v => [some v]
  | [], n + 1, v => none :: padSet [] n v
  | _ :: xs, 0, v => some v :: xs
  | x :: xs, n + 1, v => x :: padSet xs n v

def jsArraySet (l : List (Option String)) (i : Int) (v : String) : List (Option String) :=
  if 0 ≤ i then padSet l i.toNat v else l

/-- Reading index j of a sparse JavaScript array: holes and out-of-range
reads are both undefined, that is none. -/
def jsGet (l : List (Option String)) (j : Nat) : Option String :=
  (l.getD j none)

def thumbnailReducer (state : ThumbnailState) (action : ThumbnailAction) : ThumbnailState :=
  match action with
  | .initBatch =>
      { state with
        isLoading := true
        error := none
        generatedThumbnails := []
        thumbnailLoadingStates := [true, true, true, true, true] }
  | .initSingle =>
      { state with isLoading := true, error := none }
  | .setItemDone i =>
      let next := state.thumbnailLoadingStates
      let next :=
        if 0 ≤ i ∧ i < (next.length : Int) then next.set i.toNat false else next
      { state with thumbnailLoadingStates := next }
  | .addOrSetThumbnail i url =>
      { state with generatedThumbnails := jsArraySet state.generatedThumbnails i url }
  | .successBatch thumbnails =>
      { state with
        isLoading := false
        generatedThumbnails := thumbnails.map some
        thumbnailLoadingStates := [false, false, false, false, false] }
  | .successSave =>
      { state with isLoading := false }
  | .error payload =>
      { state with
        isLoading := false
        error := some payload
        thumbnailLoadingStates := [false, false, false, false, false] }
  | .clear => initialThumbnailState

/-! ### Session guard
Embeds the validateSession logic documented in src/unnamed/part_003
(Session Security Flow Diagrams, sections 4 and 5): the session is valid
exactly when the four stored keys are present, the stored user record
parses, and the parsed user id equals the stored active user id.  The
outcome of parsing the serialized user record is represented explicitly:
a stored record is either unparsable JSON or a record carrying an id. -/

inductive StoredUserData where
  | unparsable : StoredUserData
  | record (id : String) : StoredUserData
deriving Repr, DecidableEq

structure SessionStore where
  auth_token : Option String
  user_data : Option StoredUserData
  session_id : Option String
  active_user_id : Option String
deriving Repr, DecidableEq

def validateSession (s : SessionStore) : Bool :=
  match s.auth_token, s.user_data, s.session_id, s.active_user_id with
  | some _, some (.record uid), some _, some active => uid == active
  | _, _, _, _ => false

/-! ### saveThumbnail local validation
Embeds the pre-network phase of saveThumbnail in
src/src/lib/hooks/upload/useThumbnail.ts (lines 165-181): missing data and
a thumbnail URL that does not start with http are rejected locally, with
an ERROR dispatch and a toast but no network request; otherwise the POST
request to the save endpoint is issued with the URL as body. -/

inductive SaveThumbnailStep where
  | validationError (title msg : String) : SaveThumbnailStep
  | request (url : String) (thumbnail_url : String) : SaveThumbnailStep
deriving Repr, DecidableEq

/-- JavaScript string startsWith: the first argument starts with the
second, as sequences of characters. -/
def strStartsWith (s pre : String) : Bool :=
  pre.data.isPrefixOf s.data

def saveThumbnail (videoId thumbnailUrl : String) : SaveThumbnailStep :=
  if videoId = "" ∨ thumbnailUrl = "" then
    .validationError "Missing Data" "Video ID and thumbnail URL are required"
  else if ¬ (strStartsWith thumbnailUrl "http") then
    .validationError "Invalid URL" "Invalid thumbnail URL format"
  else
    .request ("/thumbnail-generator/" ++ videoId ++ "/save") thumbnailUrl

/-! ### Thumbnail batch generation
Embeds generateThumbnails and its inner helper generateWithDelay from
src/src/lib/hooks/upload/useThumbnail.ts.  Each of the five staggered
requests either throws, or resolves to a response whose image_url field
may be absent or empty; generateWithDelay itself never rejects, so every
promise passed to Promise.allSettled is fulfilled.  The network outcomes
are given to the model as a list, one entry per dispatched request. -/

inductive ThumbOutcome where
  | failed : ThumbOutcome
  | responded (image_url : Option String) : ThumbOutcome
deriving Repr, DecidableEq

/-- The image_url a settled request contributes, when that url passes the
JavaScript truthiness checks used at both dispatch sites. -/
def usableUrl : ThumbOutcome → Option String
  | .failed => none
  | .responded none => none
  | .responded (some u) => if u = "" then none else some u

/-- State effect of request i settling: SET_ITEM_DONE fires on success
and on failure, ADD_OR_SET_THUMBNAIL fires only for a truthy image_url. -/
def settleStep (s : ThumbnailState) (i : Nat) (o : ThumbOutcome) : ThumbnailState :=
  let s1 := thumbnailReducer s (.setItemDone (i : Int))
  match usableUrl o with
  | some u => thumbnailReducer s1 (.addOrSetThumbnail (i : Int) u)
  | none => s1

def successMessage (n : Nat) : String :=
  if n = 5 then "All 5 thumbnails generated successfully!"
  else toString n ++ " out of 5 thumbnails generated successfully."

structure ThumbnailBatchResponse where
  thumbnails : List String
  video_id : String
  success : Bool
  message : String
deriving Repr, DecidableEq

inductive BatchResult where
  | missingId : BatchResult
  | thrown (msg : String) : BatchResult
  | ok (resp : ThumbnailBatchResponse) : BatchResult
deriving Repr, DecidableEq

/-- The state after the requests dispatched from position i onward have
all settled, in dispatch order. -/
def settleAll (s : ThumbnailState) (i : Nat) : List ThumbOutcome → ThumbnailState
  | [] => s
  | o :: rest => settleAll (settleStep s i o) (i + 1) rest

def generateThumbnails (s : ThumbnailState) (videoId : String)
    (outcomes : List ThumbOutcome) : ThumbnailState × BatchResult :=
  if videoId = "" then
    (thumbnailReducer s (.error "Video ID is required"), .missingId)
  else
    let s0 := thumbnailReducer s .initBatch
    let sSettled := settleAll s0 0 outcomes
    let thumbnails := outcomes.filterMap usableUrl
    if thumbnails.length = 0 then
      (thumbnailReducer sSettled (.error "Failed to generate any thumbnails"),
       .thrown "Failed to generate any thumbnails")
    else
      (thumbnailReducer sSettled (.successBatch thumbnails),
       .ok { thumbnails := thumbnails
             video_id := videoId
             success := true
             message := successMessage thumbnails.length })

/-! ### handleDirectUpload
Embeds the refactored handleDirectUpload shown in src/unnamed/part_002
(lines 240-317).  The environment carries the user state and the result
of each remote call; the run records which calls were attempted and which
toasts fired.  A failing privacy call is rethrown inside step 1, so it
lands in the outer catch before the publish call; a failing playlist call
is caught in step 2 with a warning toast and the flow continues. -/

def truthyStr : Option String → Bool
  | none => false
  | some s => s != ""

structure DirectUploadEnv where
  confirmed : Bool
  videoId : Option String
  selectedPrivacy : Option String
  privacyCallOk : Bool
  selectedPlaylistId : Option String
  playlistCallOk : Bool
  publishOk : Bool
deriving Repr, DecidableEq

structure DirectUploadRun where
  privacyAttempted : Bool
  playlistAttempted : Bool
  playlistWarningToast : Bool
  publishAttempts : Nat
  successToast : Bool
  uploadFailedToast : Bool
deriving Repr, DecidableEq

def handleDirectUpload (env : DirectUploadEnv) : DirectUploadRun :=
  if ¬ env.confirmed then
    { privacyAttempted := false, playlistAttempted := false
      playlistWarningToast := false, publishAttempts := 0
      successToast := false, uploadFailedToast := false }
  else
    match env.videoId with
    | none =>
        { privacyAttempted := false, playlistAttempted := false
          playlistWarningToast := false, publishAttempts := 0
          successToast := false, uploadFailedToast := false }
    | some _ =>
        let privacyAttempted := truthyStr env.selectedPrivacy
        if privacyAttempted && !env.privacyCallOk then
          { privacyAttempted := true, playlistAttempted := false
            playlistWarningToast := false, publishAttempts := 0
            successToast := false, uploadFailedToast := true }
        else
          let playlistAttempted := truthyStr env.selectedPlaylistId
          let playlistWarned := playlistAttempted && !env.playlistCallOk
          if env.publishOk then
            { privacyAttempted := privacyAttempted
              playlistAttempted := playlistAttempted
              playlistWarningToast := playlistWarned
              publishAttempts := 1
              successToast := true, uploadFailedToast := false }
          else
            { privacyAttempted := privacyAttempted
              playlistAttempted := playlistAttempted
              playlistWarningToast := playlistWarned
              publishAttempts := 1
              successToast := false, uploadFailedToast := true }

/-! ### All-in-one save payload
Embeds the savePayload object built inside handleSave in
src/src/app/dashboard/all-in-one/page.tsx (lines 136-153).  A payload
field holding none stands for a key that is absent after JSON
serialization (a JavaScript undefined value); privacy_status is copied
from the privacyStatus state unconditionally, while playlist_name uses
playlistName or undefined, so an empty playlist name is dropped. -/

structure AllInOneTimestamp where
  time : String
  title : String
deriving Repr, DecidableEq

structure AllInOneForm where
  selectedTitle : String
  selectedThumbnail : String
  description : String
  timestamps : List AllInOneTimestamp
  privacyStatus : String
  playlistName : String
deriving Repr, DecidableEq

structure SaveContentPayload where
  selected_title : String
  selected_thumbnail_url : String
  description : String
  timestamps : List AllInOneTimestamp
  privacy_status : Option String
  playlist_name : Option String
deriving Repr, DecidableEq

def savePayload (f : AllInOneForm) : SaveContentPayload :=
  { selected_title := f.selectedTitle
    selected_thumbnail_url := f.selectedThumbnail
    description := f.description
    timestamps := f.timestamps
    privacy_status := some f.privacyStatus
    playlist_name := if f.playlistName = "" then none else some f.playlistName }

/-! ### All-in-one publish failure handling
Embeds the catch block around uploadToYouTube in handleSave
(src/src/app/dashboard/all-in-one/page.tsx, lines 179-208).  The error
payload read from uploadError.response.data is optional at every level,
as the optional chaining in the source makes it. -/

structure UploadErrorDetails where
  error_type : Option String
  youtube_video_id : Option String
deriving Repr, DecidableEq

structure UploadErrorData where
  code : Option String
  details : Option UploadErrorDetails
  message : Option String
deriving Repr, DecidableEq

/-- The needle occurs as a contiguous run inside the haystack. -/
def listIncludes (needle : List Char) : List Char → Bool
  | [] => needle.isEmpty
  | c :: rest => needle.isPrefixOf (c :: rest) || listIncludes needle rest

/-- JavaScript string includes: the needle occurs as a contiguous
substring of the haystack. -/
def strIncludes (hay needle : String) : Bool :=
  listIncludes needle.data hay.data

def isThumbnailError (e : Option UploadErrorData) : Bool :=
  match e with
  | none => false
  | some d =>
      (d.code == some "UPLOAD_005")
      || ((d.details.bind UploadErrorDetails.error_type) == some "thumbnail_upload_failure")
      || (match d.message with
          | some m => strIncludes m "thumbnail"
          | none => false)

def hasYoutubeVideoId (e : Option UploadErrorData) : Bool :=
  match (e.bind UploadErrorData.details).bind UploadErrorDetails.youtube_video_id with
  | some s => s != ""
  | none => false

inductive PublishFailureHandling where
  | thumbnailWarning : PublishFailureHandling
  | fullFailure : PublishFailureHandling
deriving Repr, DecidableEq

def handleYouTubeUploadFailure (e : Option UploadErrorData) : PublishFailureHandling :=
  if isThumbnailError e && hasYoutubeVideoId e then .thumbnailWarning
  else .fullFailure

/-! ### Thumbnail section step handling
Embeds handleThumbnailSelect (lines 122-165) and handleSaveAndNext
(lines 180-182) of src/src/components/upload/sections/ThumbnailSection.tsx.
The save outcome is passed in; both its success and its failure branch end
in the same finally block, and neither touches currentStep. -/

inductive UploadStep where
  | upload | title | description | timestamps | thumbnail | preview
deriving Repr, DecidableEq

structure SectionContent where
  thumbnails : List String
  selectedThumbnail : Option String
deriving Repr, DecidableEq

structure SectionState where
  currentStep : UploadStep
  content : SectionContent
  isSaving : Bool
deriving Repr, DecidableEq

inductive SaveOutcome where
  | success : SaveOutcome
  | failure : SaveOutcome
deriving Repr, DecidableEq

def handleThumbnailSelect (s : SectionState) (videoId : Option String)
    (thumbnail : String) (outcome : SaveOutcome) : SectionState :=
  let s1 := { s with content := { s.content with selectedThumbnail := some thumbnail } }
  if truthyStr videoId && (thumbnail != "") then
    match outcome with
    | .success => { s1 with isSaving := false }
    | .failure => { s1 with isSaving := false }
  else s1

def handleSaveAndNext (s : SectionState) : SectionState :=
  { s with currentStep := .preview }

/-! ### Local draft store
Modelled from the spec: the draft-store implementation
(src/lib/storage/uploadDraft.ts) is not present in the repository; only
its clearUploadDraft call site appears, in AUTO_NAVIGATE_AFTER_UPLOAD.md
(lines 78-82).  Modelled from spec section 4.4: save merges the partial
draft key-wise into any existing draft for that video id with per-key
overwrite, load returns the draft or null, clear removes the draft for
that id only.  A draft is an association list from field keys to values;
the store is an association list from video ids to drafts, with lookup
returning the most recent binding. -/

abbrev UploadDraft := List (String × String)

abbrev DraftStore := List (String × UploadDraft)

/-- Modelled from the spec: key-wise merge with overwrite, keys of the new
partial draft win, keys only in the existing draft survive. -/
def mergeDraft (old d : UploadDraft) : UploadDraft :=
  d ++ old.filter (fun p => (d.lookup p.1).isNone)

def loadUploadDraft (st : DraftStore) (id : String) : Option UploadDraft :=
  st.lookup id

def saveUploadDraft (st : DraftStore) (id : String) (d : UploadDraft) : DraftStore :=
  (id, mergeDraft ((st.lookup id).getD []) d) :: st

def clearUploadDraft (st : DraftStore) (id : String) : DraftStore :=
  st.filter (fun p => p.1 != id)

/-! ## Helper lemmas -/

theorem intNatCond (i len : Nat) :
    ((0 : Int) ≤ (i : Int) ∧ (i : Int) < (len : Int)) ↔ i < len := by
  omega

theorem padSet_length (l : List (Option String)) (n : Nat) (v : String) :
    (padSet l n v).length = max l.length (n + 1) := by
  induction l generalizing n with
  | nil =>
      induction n with
      | zero => simp [padSet]
      | succ k ih => simp [padSet, ih]
  | cons x xs ih =>
      cases n with
      | zero => simp [padSet]
      | succ k => simp [padSet, ih]; omega

theorem padSet_getD_self (l : List (Option String)) (n : Nat) (v : String) :
    jsGet (padSet l n v) n = some v := by
  induction l generalizing n with
  | nil =>
      induction n with
      | zero => simp [padSet, jsGet]
      | succ k ih => simpa [padSet, jsGet] using ih
  | cons x xs ih =>
      cases n with
      | zero => simp [padSet, jsGet]
      | succ k => simpa [padSet, jsGet] using ih k

theorem padSet_getD_ne (l : List (Option String)) (n m : Nat) (v : String)
    (h : m ≠ n) : jsGet (padSet l n v) m = jsGet l m := by
  induction l generalizing n m with
  | nil =>
      induction n generalizing m with
      | zero =>
          cases m with
          | zero => exact absurd rfl h
          | succ j => simp [padSet, jsGet]
      | succ k ih =>
          cases m with
          | zero => simp [padSet, jsGet]
          | succ j =>
              have hj : j ≠ k := fun he => h (by rw [he])
              simpa [padSet, jsGet] using ih j hj
  | cons x xs ih =>
      cases n with
      | zero =>
          cases m with
          | zero => exact absurd rfl h
          | succ j => simp [padSet, jsGet]
      | succ k =>
          cases m with
          | zero => simp [padSet, jsGet]
          | succ j =>
              have hj : j ≠ k := fun he => h (by rw [he])
              simpa [padSet, jsGet] using ih k j hj

theorem padSet_comm (l : List (Option String)) (m n : Nat) (u v : String)
    (h : m ≠ n) :
    padSet (padSet l m u) n v = padSet (padSet l n v) m u := by
  induction l generalizing m n with
  | nil =>
      induction m generalizing n with
      | zero =>
          cases n with
          | zero => exact absurd rfl h
          | succ k => simp [padSet]
      | succ j ih =>
          cases n with
          | zero => simp [padSet]
          | succ k =>
              have hj : j ≠ k := fun he => h (by rw [he])
              simpa [padSet] using ih k hj
  | cons x xs ih =>
      cases m with
      | zero =>
          cases n with
          | zero => exact absurd rfl h
          | succ k => simp [padSet]
      | succ j =>
          cases n with
          | zero => simp [padSet]
          | succ k =>
              have hj : j ≠ k := fun he => h (by rw [he])
              simpa [padSet] using ih j k hj

theorem setItemDone_natCast (s : ThumbnailState) (i : Nat) :
    thumbnailReducer s (.setItemDone (i : Int)) =
      { s with thumbnailLoadingStates :=
          if i < s.thumbnailLoadingStates.length then
            s.thumbnailLoadingStates.set i false
          else s.thumbnailLoadingStates } := by
  simp only [thumbnailReducer, intNatCond, Int.toNat_natCast]

theorem addOrSet_natCast (s : ThumbnailState) (i : Nat) (u : String) :
    thumbnailReducer s (.addOrSetThumbnail (i : Int) u) =
      { s with generatedThumbnails := padSet s.generatedThumbnails i u } := by
  simp [thumbnailReducer, jsArraySet]

theorem settleStep_eq (s : ThumbnailState) (i : Nat) (o : ThumbOutcome) :
    settleStep s i o =
      { s with
        thumbnailLoadingStates :=
          if i < s.thumbnailLoadingStates.length then
            s.thumbnailLoadingStates.set i false
          else s.thumbnailLoadingStates
        generatedThumbnails :=
          match usableUrl o with
          | some u => padSet s.generatedThumbnails i u
          | none => s.generatedThumbnails } := by
  unfold settleStep
  cases huse : usableUrl o
  · rw [setItemDone_natCast]
  · rw [setItemDone_natCast]
    simp [addOrSet_natCast]

theorem settleStep_comm (s : ThumbnailState) (i1 i2 : Nat) (o1 o2 : ThumbOutcome)
    (h : i1 ≠ i2) :
    settleStep (settleStep s i1 o1) i2 o2 = settleStep (settleStep s i2 o2) i1 o1 := by
  rcases s with ⟨il, er, gt, fl⟩
  simp only [settleStep_eq]
  refine congrArg₂ (fun a b => ThumbnailState.mk il er a b) ?_ ?_
  · cases hu1 : usableUrl o1 <;> cases hu2 : usableUrl o2 <;> simp
    exact padSet_comm gt i1 i2 _ _ h
  · by_cases h1 : i1 < fl.length <;> by_cases h2 : i2 < fl.length <;>
      simp [h1, h2, List.length_set]
    exact List.set_comm false false fl h

theorem settleAll_generatedThumbnails_unusable (outcomes : List ThumbOutcome)
    (s : ThumbnailState) (i : Nat)
    (h : ∀ o ∈ outcomes, usableUrl o = none) :
    (settleAll s i outcomes).generatedThumbnails = s.generatedThumbnails := by
  induction outcomes generalizing s i with
  | nil => rfl
  | cons o rest ih =>
      have ho := h o (List.mem_cons_self o rest)
      rw [settleAll, ih _ _ (fun x hx => h x (List.mem_cons_of_mem o hx)),
        settleStep_eq]
      simp [ho]

theorem lookup_append_left (l r : List (String × String)) (k : String)
    (v : String) (h : l.lookup k = some v) : (l ++ r).lookup k = some v := by
  induction l with
  | nil => simp [List.lookup] at h
  | cons p rest ih =>
      rcases p with ⟨k1, v1⟩
      cases hk : (k == k1) <;> simp [List.lookup, hk] at h ⊢
      · exact ih h
      · exact h

theorem lookup_append_right (l r : List (String × String)) (k : String)
    (h : l.lookup k = none) : (l ++ r).lookup k = r.lookup k := by
  induction l with
  | nil => simp
  | cons p rest ih =>
      rcases p with ⟨k1, v1⟩
      cases hk : (k == k1)
      · simp only [List.cons_append, List.lookup, hk] at h ⊢
        exact ih h
      · simp only [List.lookup, hk] at h
        exact absurd h (by simp)

theorem lookup_filter_keyTrue (l : List (String × String))
    (pred : String × String → Bool) (k : String)
    (hk : ∀ v, pred (k, v) = true) :
    (l.filter pred).lookup k = l.lookup k := by
  induction l with
  | nil => rfl
  | cons p rest ih =>
      rcases p with ⟨k1, v1⟩
      by_cases he : k = k1
      · subst he
        simp [List.filter_cons, hk v1, List.lookup, ih]
      · have hbeq : (k == k1) = false := beq_eq_false_iff_ne.mpr he
        cases hp : pred (k1, v1) <;>
          simp [List.filter_cons, hp, List.lookup, hbeq, ih]

theorem lookup_filter_neKey (st : DraftStore) (id : String) :
    (st.filter (fun p => p.1 != id)).lookup id = none := by
  induction st with
  | nil => rfl
  | cons p rest ih =>
      rcases p with ⟨k, v⟩
      by_cases he : k = id
      · subst he
        simp [List.filter_cons, ih]
      · have hbeq : (id == k) = false :=
          beq_eq_false_iff_ne.mpr (fun h2 => he h2.symm)
        have hne : (k != id) = true := by
          simp [bne, beq_eq_false_iff_ne.mpr he]
        simp [List.filter_cons, hne, List.lookup, hbeq, ih]

theorem mergeDraft_lookup_new (old d : UploadDraft) (k v : String)
    (h : d.lookup k = some v) : (mergeDraft old d).lookup k = some v :=
  lookup_append_left d _ k v h

theorem mergeDraft_lookup_old (old d : UploadDraft) (k v : String)
    (hnew : d.lookup k = none) (hold : old.lookup k = some v) :
    (mergeDraft old d).lookup k = some v := by
  unfold mergeDraft
  rw [lookup_append_right d _ k hnew,
    lookup_filter_keyTrue old _ k (fun v2 => by simp [hnew])]
  exact hold

theorem load_save (st : DraftStore) (id : String) (d : UploadDraft) :
    loadUploadDraft (saveUploadDraft st id d) id
      = some (mergeDraft ((st.lookup id).getD []) d) := by
  simp [loadUploadDraft, saveUploadDraft, List.lookup]

/-! ## Theorems -/

/-- C3: session validity is a pure function of the four stored identity
fields: it is true exactly when all four are present, the user record
parses, and the parsed user id equals the stored active user id; every
other combination is invalid. -/
theorem claim_C3 (s : SessionStore) :
    validateSession s = true ↔
      s.auth_token.isSome = true ∧ s.session_id.isSome = true ∧
      ∃ uid, s.user_data = some (StoredUserData.record uid) ∧
        s.active_user_id = some uid := by
  rcases s with ⟨tok, ud, sid, act⟩
  rcases ud with _ | ud
  · cases tok <;> cases sid <;> cases act <;> simp [validateSession]
  · rcases ud with _ | uid
    · cases tok <;> cases sid <;> cases act <;> simp [validateSession]
    · cases tok <;> cases sid <;> cases act <;> simp [validateSession]
      exact eq_comm

/-- C6: saveThumbnail rejects an empty thumbnail URL and a URL that does
not start with http locally, with a validation error and no network
request; a request is issued only for a non-empty URL starting with http,
and it carries that URL. -/
theorem claim_C6 (videoId thumbnailUrl : String) :
    ((thumbnailUrl = "" ∨ strStartsWith thumbnailUrl "http" = false) →
        ∃ t m, saveThumbnail videoId thumbnailUrl = .validationError t m)
    ∧ (∀ u b, saveThumbnail videoId thumbnailUrl = .request u b →
        thumbnailUrl ≠ "" ∧ strStartsWith thumbnailUrl "http" = true ∧ b = thumbnailUrl) := by
  constructor
  · intro h
    unfold saveThumbnail
    by_cases h1 : videoId = "" ∨ thumbnailUrl = ""
    · simp [h1]
    · rcases h with h | h
      · exact absurd (Or.inr h) h1
      · simp [h1, h]
  · intro u b hreq
    unfold saveThumbnail at hreq
    by_cases h1 : videoId = "" ∨ thumbnailUrl = ""
    · simp [h1] at hreq
    · by_cases h2 : strStartsWith thumbnailUrl "http"
      · simp [h1, h2] at hreq
        exact ⟨fun he => h1 (Or.inr he), h2, hreq.2.symm⟩
      · simp [h1, h2] at hreq

/-- C6 witness: an ftp URL is rejected locally, and an http URL reaches
the request stage carrying the URL unchanged. -/
theorem claim_C6_witness :
    (∃ t m, saveThumbnail "vid-1" "ftp://img.png" = .validationError t m)
    ∧ (("http://img.png" : String) ≠ "" ∧
        strStartsWith "http://img.png" "http" = true ∧
        "http://img.png" = "http://img.png") :=
  ⟨(claim_C6 "vid-1" "ftp://img.png").1 (Or.inr (by decide)),
   (claim_C6 "vid-1" "http://img.png").2
     "/thumbnail-generator/vid-1/save" "http://img.png" (by decide)⟩

/-- C10: the thumbnail reducer preserves the invariant that
thumbnailLoadingStates has length exactly five: the initial state
satisfies it, every action preserves it, and SET_ITEM_DONE with an
out-of-range index leaves the flag array unchanged. -/
theorem claim_C10 (s : ThumbnailState) (a : ThumbnailAction)
    (h : s.thumbnailLoadingStates.length = 5) :
    (thumbnailReducer s a).thumbnailLoadingStates.length = 5
    ∧ initialThumbnailState.thumbnailLoadingStates.length = 5
    ∧ (∀ i : Int, (i < 0 ∨ 5 ≤ i) →
        (thumbnailReducer s (.setItemDone i)).thumbnailLoadingStates
          = s.thumbnailLoadingStates) := by
  refine ⟨?_, rfl, ?_⟩
  · cases a <;> simp [thumbnailReducer, initialThumbnailState, h]
    case setItemDone i =>
      split <;> simp [List.length_set, h]
  · intro i hi
    have hcond : ¬ (0 ≤ i ∧ i < (s.thumbnailLoadingStates.length : Int)) := by
      rw [h]; omega
    simp [thumbnailReducer, hcond]

/-- C10 witness: the invariant proved at the initial state and the
INIT_BATCH action. -/
theorem claim_C10_witness :
    (thumbnailReducer initialThumbnailState .initBatch).thumbnailLoadingStates.length = 5 :=
  (claim_C10 initialThumbnailState .initBatch (by decide)).1

/-- C4 counterexample: with the privacy selection empty, handleSave still
puts the privacy_status key into the save-content payload, carrying the
empty string instead of omitting the key, so the omit-if-empty claim
fails for privacy_status. -/
theorem claim_C4_counterexample :
    (savePayload
      { selectedTitle := "t", selectedThumbnail := "http://u.png",
        description := "d", timestamps := [], privacyStatus := "",
        playlistName := "" }).privacy_status = some "" := rfl

/-- C4 amended: playlist_name has omit-if-empty semantics, but
privacy_status is always included in the save-content payload with the
current privacyStatus value (whose default is public); an empty privacy
value is sent as the empty string rather than omitted. -/
theorem claim_C4 (f : AllInOneForm) :
    (savePayload f).privacy_status = some f.privacyStatus
    ∧ ((savePayload f).playlist_name = none ↔ f.playlistName = "")
    ∧ (f.playlistName ≠ "" → (savePayload f).playlist_name = some f.playlistName) := by
  refine ⟨rfl, ?_, ?_⟩ <;> unfold savePayload <;> split <;> simp_all

/-- C4 witness: with privacy public and playlist My List selected, the
payload carries both values. -/
theorem claim_C4_witness :
    (savePayload
      { selectedTitle := "t", selectedThumbnail := "http://u.png",
        description := "d", timestamps := [], privacyStatus := "public",
        playlistName := "My List" }).privacy_status = some "public"
    ∧ (savePayload
      { selectedTitle := "t", selectedThumbnail := "http://u.png",
        description := "d", timestamps := [], privacyStatus := "public",
        playlistName := "My List" }).playlist_name = some "My List" :=
  ⟨(claim_C4 _).1, (claim_C4 _).2.2 (by decide)⟩

/-- C8 counterexample: an error response whose code is the thumbnail
failure code UPLOAD_005 but which carries no youtube_video_id is
thumbnail-specific by its error code, yet handleSave treats it as a full
publish failure rather than downgrading it to a warning. -/
theorem claim_C8_counterexample :
    isThumbnailError
      (some { code := some "UPLOAD_005", details := none, message := none }) = true
    ∧ handleYouTubeUploadFailure
      (some { code := some "UPLOAD_005", details := none, message := none })
        = PublishFailureHandling.fullFailure := by
  exact ⟨by decide, by decide⟩

/-- C8 amended: a publish failure is downgraded to the
video-published-thumbnail-not-applied warning exactly when it is
thumbnail-specific (code UPLOAD_005, error_type thumbnail_upload_failure,
or a message mentioning thumbnail) and its payload also carries a
non-empty details.youtube_video_id; every other failure, including a
thumbnail-specific one without a youtube_video_id, is reported as a full
publish failure. -/
theorem claim_C8 (e : Option UploadErrorData) :
    (handleYouTubeUploadFailure e = .thumbnailWarning
      ↔ (isThumbnailError e = true ∧ hasYoutubeVideoId e = true))
    ∧ (handleYouTubeUploadFailure e = .fullFailure
      ↔ ¬ (isThumbnailError e = true ∧ hasYoutubeVideoId e = true)) := by
  unfold handleYouTubeUploadFailure
  by_cases h : isThumbnailError e && hasYoutubeVideoId e <;>
    simp_all [Bool.and_eq_true]

/-- C5 counterexample: selecting a thumbnail whose backend save fails and
then clicking Save and Next still advances currentStep to preview, so the
step is advanced although the save call failed. -/
theorem claim_C5_counterexample :
    (handleSaveAndNext
        (handleThumbnailSelect
          { currentStep := UploadStep.thumbnail
            content := { thumbnails := ["http://t1.png"], selectedThumbnail := none }
            isSaving := false }
          (some "vid-1") "http://t1.png" SaveOutcome.failure)).currentStep
      = UploadStep.preview := by decide

/-- C5 amended: in the thumbnail section the save happens at selection
time and never moves the step, whatever the save outcome; the Save and
Next handler advances currentStep to preview unconditionally, performing
no save and consulting no save outcome. -/
theorem claim_C5 (s : SectionState) (videoId : Option String)
    (thumbnail : String) (outcome : SaveOutcome) :
    (handleThumbnailSelect s videoId thumbnail outcome).currentStep = s.currentStep
    ∧ (handleThumbnailSelect s videoId thumbnail outcome).content.selectedThumbnail
        = some thumbnail
    ∧ (handleSaveAndNext s).currentStep = UploadStep.preview := by
  unfold handleThumbnailSelect handleSaveAndNext
  cases outcome <;> split <;> simp

/-- C1 counterexample: with a privacy value selected and the set-privacy
call failing, handleDirectUpload rethrows out of step 1 and the publish
call is never attempted, so a step-1 failure does prevent the publish. -/
theorem claim_C1_counterexample :
    (handleDirectUpload
      { confirmed := true, videoId := some "vid-1",
        selectedPrivacy := some "private", privacyCallOk := false,
        selectedPlaylistId := none, playlistCallOk := true,
        publishOk := true }).publishAttempts = 0 := by decide

/-- C1 amended: once the publish flow is confirmed and a video id is
present, a playlist-select failure is non-fatal (warning toast, flow
continues) and the publish call is still attempted exactly once; but a
set-privacy failure is fatal: it aborts with the upload-failed toast and
the publish call is not attempted at all. -/
theorem claim_C1 (env : DirectUploadEnv) (hc : env.confirmed = true)
    (hv : env.videoId.isSome = true) :
    ((truthyStr env.selectedPrivacy && !env.privacyCallOk) = true →
        (handleDirectUpload env).publishAttempts = 0
        ∧ (handleDirectUpload env).uploadFailedToast = true)
    ∧ ((truthyStr env.selectedPrivacy && !env.privacyCallOk) = false →
        (handleDirectUpload env).publishAttempts = 1
        ∧ ((truthyStr env.selectedPlaylistId && !env.playlistCallOk) = true →
            (handleDirectUpload env).playlistWarningToast = true)) := by
  rcases env with ⟨c, vid, priv, pok, pl, plok, pub⟩
  simp only at hc hv
  subst hc
  rcases Option.isSome_iff_exists.mp hv with ⟨v, rfl⟩
  constructor
  · intro hfail
    simp [handleDirectUpload, hfail]
  · intro hok
    cases pub <;> simp [handleDirectUpload, hok]

/-- C1 witness: confirmed run with a video id, privacy set and its call
succeeding, a selected playlist whose call fails: the publish is
attempted exactly once and the playlist warning toast fires. -/
theorem claim_C1_witness :
    (handleDirectUpload
      { confirmed := true, videoId := some "vid-1",
        selectedPrivacy := some "private", privacyCallOk := true,
        selectedPlaylistId := some "PL1", playlistCallOk := false,
        publishOk := true }).publishAttempts = 1
    ∧ (handleDirectUpload
      { confirmed := true, videoId := some "vid-1",
        selectedPrivacy := some "private", privacyCallOk := true,
        selectedPlaylistId := some "PL1", playlistCallOk := false,
        publishOk := true }).playlistWarningToast = true := by
  have h := (claim_C1
    { confirmed := true, videoId := some "vid-1",
      selectedPrivacy := some "private", privacyCallOk := true,
      selectedPlaylistId := some "PL1", playlistCallOk := false,
      publishOk := true } rfl rfl).2 (by decide)
  exact ⟨h.1, h.2 (by decide)⟩

/-- C7: each batch request is tracked independently.  When request i
settles, its loading flag at index i flips to false and the flags of all
other indices keep their values; slot i of generatedThumbnails receives
the image url when the request produced a usable one and every other slot
is unchanged; and settlements at distinct indices commute, so the result
is the same under any order of completion, slot i always belonging to
request i. -/
theorem claim_C7 (s : ThumbnailState) (i : Nat) (o : ThumbOutcome)
    (h5 : s.thumbnailLoadingStates.length = 5) (hi : i < 5) :
    ((settleStep s i o).thumbnailLoadingStates)[i]? = some false
    ∧ (∀ j, j ≠ i →
        ((settleStep s i o).thumbnailLoadingStates)[j]?
          = (s.thumbnailLoadingStates)[j]?)
    ∧ (∀ j, j ≠ i →
        jsGet (settleStep s i o).generatedThumbnails j
          = jsGet s.generatedThumbnails j)
    ∧ (∀ u, usableUrl o = some u →
        jsGet (settleStep s i o).generatedThumbnails i = some u)
    ∧ (usableUrl o = none →
        jsGet (settleStep s i o).generatedThumbnails i
          = jsGet s.generatedThumbnails i)
    ∧ (∀ i2 o2, i2 ≠ i →
        settleStep (settleStep s i o) i2 o2 = settleStep (settleStep s i2 o2) i o) := by
  have hlen : i < s.thumbnailLoadingStates.length := by omega
  refine ⟨?_, ?_, ?_, ?_, ?_, ?_⟩
  · rw [settleStep_eq]
    simp [hlen]
  · intro j hj
    rw [settleStep_eq]
    simp only [hlen, if_pos]
    exact List.getElem?_set_ne (fun he => hj he.symm)
  · intro j hj
    rw [settleStep_eq]
    cases hu : usableUrl o
    · simp
    · simpa using padSet_getD_ne s.generatedThumbnails i j _ hj
  · intro u hu
    rw [settleStep_eq]
    simpa [hu] using padSet_getD_self s.generatedThumbnails i u
  · intro hu
    rw [settleStep_eq]
    simp [hu]
  · intro i2 o2 hne
    exact settleStep_comm s i i2 o o2 (fun he => hne he.symm)

/-- C7 witness: in the fresh batch state, request 2 settling with a
usable url flips flag 2 and stores the url in slot 2. -/
theorem claim_C7_witness :
    ((settleStep (thumbnailReducer initialThumbnailState .initBatch) 2
        (.responded (some "http://t2.png"))).thumbnailLoadingStates)[2]?
      = some false
    ∧ jsGet (settleStep (thumbnailReducer initialThumbnailState .initBatch) 2
        (.responded (some "http://t2.png"))).generatedThumbnails 2
      = some "http://t2.png" :=
  ⟨(claim_C7 (thumbnailReducer initialThumbnailState .initBatch) 2
      (.responded (some "http://t2.png")) (by decide) (by decide)).1,
   (claim_C7 (thumbnailReducer initialThumbnailState .initBatch) 2
      (.responded (some "http://t2.png")) (by decide) (by decide)).2.2.2.1
      "http://t2.png" (by decide)⟩

/-- C2: for a batch of five dispatched generation requests the operation
returns a success response exactly when at least one request resolved
with a usable image url; with zero usable results it throws the aggregate
error and records it in state; with one to four it succeeds with the
N-out-of-5 message; and the final generatedThumbnails length equals the
number of requests that resolved with a usable url. -/
theorem claim_C2 (s : ThumbnailState) (videoId : String)
    (outcomes : List ThumbOutcome) (hv : videoId ≠ "")
    (h5 : outcomes.length = 5) :
    ((∃ resp, (generateThumbnails s videoId outcomes).2 = .ok resp)
        ↔ 1 ≤ (outcomes.filterMap usableUrl).length)
    ∧ ((outcomes.filterMap usableUrl).length = 0 →
        (generateThumbnails s videoId outcomes).1.error
            = some "Failed to generate any thumbnails"
        ∧ (generateThumbnails s videoId outcomes).2
            = .thrown "Failed to generate any thumbnails")
    ∧ (∀ resp, (generateThumbnails s videoId outcomes).2 = .ok resp →
        resp.success = true
        ∧ resp.thumbnails = outcomes.filterMap usableUrl
        ∧ (1 ≤ (outcomes.filterMap usableUrl).length →
            (outcomes.filterMap usableUrl).length ≤ 4 →
            resp.message
              = toString (outcomes.filterMap usableUrl).length
                ++ " out of 5 thumbnails generated successfully."))
    ∧ (generateThumbnails s videoId outcomes).1.generatedThumbnails.length
        = (outcomes.filterMap usableUrl).length := by
  by_cases hn : (outcomes.filterMap usableUrl).length = 0
  · have hnil : outcomes.filterMap usableUrl = [] := List.length_eq_zero.mp hn
    have hall : ∀ o ∈ outcomes, usableUrl o = none :=
      List.filterMap_eq_nil_iff.mp hnil
    have hpres :
        (settleAll
          { isLoading := true, error := none, generatedThumbnails := [],
            thumbnailLoadingStates := [true, true, true, true, true] }
          0 outcomes).generatedThumbnails = ([] : List (Option String)) :=
      settleAll_generatedThumbnails_unusable outcomes _ 0 hall
    refine ⟨?_, ?_, ?_, ?_⟩
    · simp [generateThumbnails, hv, hn, thumbnailReducer]
    · intro _
      constructor <;> simp [generateThumbnails, hv, hn, thumbnailReducer]
    · intro resp hresp
      exfalso
      simp [generateThumbnails, hv, hn, thumbnailReducer] at hresp
    · simp [generateThumbnails, hv, hn, thumbnailReducer, hpres]
  · refine ⟨?_, ?_, ?_, ?_⟩
    · simp [generateThumbnails, hv, hn, thumbnailReducer]
      omega
    · intro h0
      exact absurd h0 hn
    · intro resp hresp
      simp [generateThumbnails, hv, hn, thumbnailReducer] at hresp
      subst hresp
      refine ⟨rfl, rfl, ?_⟩
      intro _ h4
      have hne5 : (outcomes.filterMap usableUrl).length ≠ 5 := by omega
      simp [successMessage, hne5]
    · simp [generateThumbnails, hv, hn, thumbnailReducer]

/-- C2 witness: a batch where only the first request produced a usable
url gives a final generatedThumbnails of length one. -/
theorem claim_C2_witness :
    (generateThumbnails initialThumbnailState "vid-1"
        [.responded (some "http://a.png"), .failed, .responded none,
         .responded (some ""), .failed]).1.generatedThumbnails.length
      = ([.responded (some "http://a.png"), .failed, .responded none,
          .responded (some ""), .failed].filterMap usableUrl).length :=
  (claim_C2 initialThumbnailState "vid-1"
    [.responded (some "http://a.png"), .failed, .responded none,
     .responded (some ""), .failed] (by decide) (by decide)).2.2.2

/-- C9: draft round-trip.  Saving a partial draft and loading the same
video id returns a draft that carries every key of the partial draft with
its saved value; a later save to the same id merges key-wise, its keys
overwriting and the untouched keys keeping their previous values; and
clearing an id makes a subsequent load return nothing. -/
theorem claim_C9 (st : DraftStore) (id : String) (d d2 : UploadDraft)
    (k : String) (v : String) :
    (d.lookup k = some v →
      ∃ dr, loadUploadDraft (saveUploadDraft st id d) id = some dr
        ∧ dr.lookup k = some v)
    ∧ (d2.lookup k = some v →
      ∃ dr,
        loadUploadDraft (saveUploadDraft (saveUploadDraft st id d) id d2) id
          = some dr
        ∧ dr.lookup k = some v)
    ∧ (d2.lookup k = none → d.lookup k = some v →
      ∃ dr,
        loadUploadDraft (saveUploadDraft (saveUploadDraft st id d) id d2) id
          = some dr
        ∧ dr.lookup k = some v)
    ∧ loadUploadDraft (clearUploadDraft st id) id = none := by
  refine ⟨?_, ?_, ?_, ?_⟩
  · intro h
    exact ⟨_, load_save st id d, mergeDraft_lookup_new _ d k v h⟩
  · intro h
    exact ⟨_, load_save _ id d2, mergeDraft_lookup_new _ d2 k v h⟩
  · intro h2 h1
    refine ⟨_, load_save _ id d2, ?_⟩
    refine mergeDraft_lookup_old _ d2 k v h2 ?_
    have hload := load_save st id d
    simp only [loadUploadDraft] at hload
    rw [hload]
    simp only [Option.getD_some]
    exact mergeDraft_lookup_new _ d k v h1
  · exact lookup_filter_neKey st id

/-- C9 witness: an empty store, a first save of the thumbnail url, a
second save of the step field: the load returns the thumbnail url saved
first, and a cleared store loads nothing. -/
theorem claim_C9_witness :
    (∃ dr,
      loadUploadDraft
        (saveUploadDraft
          (saveUploadDraft [] "vid-1" [("thumbnailUrl", "http://a.png")])
          "vid-1" [("step", "3")]) "vid-1" = some dr
      ∧ dr.lookup "thumbnailUrl" = some "http://a.png")
    ∧ loadUploadDraft (clearUploadDraft [] "vid-1") "vid-1" = none :=
  ⟨(claim_C9 [] "vid-1" [("thumbnailUrl", "http://a.png")] [("step", "3")]
      "thumbnailUrl" "http://a.png").2.2.1 (by decide) (by decide),
   (claim_C9 [] "vid-1" [("thumbnailUrl", "http://a.png")] [("step", "3")]
      "thumbnailUrl" "http://a.png").2.2.2⟩

end SaaS
